import Mathlib

/-!
Shallow embedding of the session-coordination layer of the image-rs viewer
client: the viewport coordinate transform, the hover readout, the
frame-request freshness-token coordinator, and the job-lifecycle state
machine of the legacy viewer page script.

JavaScript numbers are embedded as exact rationals (the spec's properties
are stated "in exact arithmetic"), integer indices and tokens as `Int`/`Nat`,
and nullable values as `Option`.
-/

namespace ImageRs

/-! ## Viewport transform

`toScreen` is the canvas transform `setTransform(zoom, 0, 0, zoom, panX, panY)`
applied to a data-space point; `toDataFloor` is the inverse mapping used by
`updateHover` / `toImageCoordinates`:
`imageX = Math.floor((localX - panX) / zoom)` and likewise for `y`. -/

def toScreen (zoom panX panY dataX dataY : ℚ) : ℚ × ℚ :=
  (dataX * zoom + panX, dataY * zoom + panY)

def toDataFloor (zoom panX panY screenX screenY : ℚ) : ℤ × ℤ :=
  (⌊(screenX - panX) / zoom⌋, ⌊(screenY - panY) / zoom⌋)

/-- The pan update of the wheel handler, anchored at the local point:
`panX = localX - ((localX - panX) * nextZoom) / previousZoom` (and the same
formula for the y components). -/
def anchoredPan (previousZoom nextZoom pan localCoord : ℚ) : ℚ :=
  localCoord - ((localCoord - pan) * nextZoom) / previousZoom

/-! ## Frame data and hover readout -/

/-- The frame buffer payload delivered by `viewer_frame_buffer`: a
`width × height` raster of 8-bit display samples plus the display
quantization range. (The histogram is not needed by the hover logic.) -/
structure FrameData where
  width : ℕ
  height : ℕ
  pixels : List ℕ
  dispMin : ℚ
  dispMax : ℚ
deriving DecidableEq, Repr

structure Hover where
  x : ℤ
  y : ℤ
  value : ℚ
deriving DecidableEq, Repr

/-- `updateHover` of the viewer window page, as a function from the current
frame, viewport and canvas-local pointer position to the hover readout
(`none` encodes `setHover(null)`).  Mirrors:
no frame → null; floor the inverse transform; bounds check against
`[0, width) × [0, height)`; else read `pixels_u8[index] ?? 0` and quantize
`value = min + (gray / 255) * (max - min)`. -/
def updateHover (frame : Option FrameData) (zoom panX panY localX localY : ℚ) :
    Option Hover :=
  match frame with
  | none => none
  | some f =>
    let imageX : ℤ := ⌊(localX - panX) / zoom⌋
    let imageY : ℤ := ⌊(localY - panY) / zoom⌋
    if imageX < 0 ∨ imageY < 0 ∨ (f.width : ℤ) ≤ imageX ∨ (f.height : ℤ) ≤ imageY then
      none
    else
      let index : ℕ := imageY.toNat * f.width + imageX.toNat
      let gray : ℕ := (f.pixels.get? index).getD 0
      some ⟨imageX, imageY, f.dispMin + ((gray : ℚ) / 255) * (f.dispMax - f.dispMin)⟩

/-! ## Frame Request Coordinator

Embeds `requestFrame` of the viewer window page: a mutable monotone counter
`requestTokenRef`, a captured per-call token, and a response continuation
that replaces the frame only when the captured token still equals the
counter.  The error continuation (the `catch` block) sets the status text
unconditionally. -/

structure FrameSession where
  requestToken : ℕ
  frame : Option ℕ
  status : String
deriving DecidableEq, Repr

/-- `const token = ++requestTokenRef.current;` — increments the counter and
captures the new value as this call's token. -/
def requestFrameIssue (s : FrameSession) : FrameSession × ℕ :=
  ({ s with requestToken := s.requestToken + 1 }, s.requestToken + 1)

/-- The success continuation: `if (token !== requestTokenRef.current) return;`
then `setFrame(payload)` and `setStatus("Rendered in ... ms")`. -/
def requestFrameOk (s : FrameSession) (token payload elapsed : ℕ) : FrameSession :=
  if token ≠ s.requestToken then s
  else { s with frame := some payload,
                status := "Rendered in " ++ toString elapsed ++ " ms" }

/-- The error continuation: `catch (error) { setStatus(String(error)); }`.
The captured `token` is in scope but is not consulted. -/
def requestFrameErr (s : FrameSession) (token : ℕ) (err : String) : FrameSession :=
  { s with status := err }

/-- A burst of `n` `requestFrame` calls, all issued before any response
arrives; the `i`-th call (1-based) captures token `s.requestToken + i`. -/
def issueBurst (s : FrameSession) : ℕ → FrameSession
  | 0 => s
  | n + 1 => (requestFrameIssue (issueBurst s n)).1

/-- Arrival of a list of successful responses `(token, payload, elapsed)`,
processed in arrival order. -/
def processResponses (s : FrameSession) (rs : List (ℕ × ℕ × ℕ)) : FrameSession :=
  rs.foldl (fun a r => requestFrameOk a r.1 r.2.1 r.2.2) s

/-! ## Job Lifecycle Manager and Event Dispatch Filter

Embeds the legacy viewer page script: session state
`{ activeJobId, busy, processStatus, frameRequests }` — the last counts the
`requestFrame()` invocations triggered by job events — together with
`startOperation` (split into its synchronous prefix and the two
continuations of the `viewer_start_op` request), `cancelOperation`, and the
`viewer-op-event` handler `handleOpEvent`. -/

/-- A `viewer-op-event` payload `{job_id, mode, op, status, message?}`
(the `mode` field is not consulted by the handler). -/
structure OpEvent where
  job_id : Option ℕ
  status : String
  op : String
  message : Option String
deriving DecidableEq, Repr

structure JsSession where
  activeJobId : Option ℕ
  busy : Bool
  processStatus : String
  frameRequests : ℕ
deriving DecidableEq, Repr

/-- The `state` literal of the page script: `activeJobId: null, busy: false`. -/
def initialSession : JsSession :=
  { activeJobId := none, busy := false, processStatus := "", frameRequests := 0 }

/-- JavaScript `payload.message || fallback`: the fallback is used when the
message is absent or the empty string (both falsy). -/
def messageOr (message : Option String) (fallback : String) : String :=
  match message with
  | none => fallback
  | some m => if m = "" then fallback else m

/-- Synchronous prefix of `startOperation`: refuse when `state.busy` is set,
otherwise mark busy, post the running message and issue the
`viewer_start_op` request.  The boolean reports whether a start request was
issued to the backend. -/
def startOperationIssue (s : JsSession) (op mode : String) : JsSession × Bool :=
  if s.busy then
    ({ s with processStatus := "Another operation is already running." }, false)
  else
    ({ s with busy := true,
              processStatus := "Running " ++ op ++ " (" ++ mode ++ ")..." }, true)

/-- Success continuation of `viewer_start_op`:
`if (state.busy) { state.activeJobId = ticket.job_id } else { state.activeJobId = null }`. -/
def startOperationOk (s : JsSession) (jobId : ℕ) : JsSession :=
  if s.busy then { s with activeJobId := some jobId }
  else { s with activeJobId := none }

/-- Error continuation of `viewer_start_op`: clear the busy flag and the
tracked job, surface the error text. -/
def startOperationErr (s : JsSession) (err : String) : JsSession :=
  { s with busy := false, activeJobId := none, processStatus := err }

/-- `cancelOperation`: refuse with "No running job." when nothing is
tracked; otherwise issue `viewer_cancel_op` for the tracked job identifier
without touching any session state.  The boolean reports whether a
cancellation request was issued. -/
def cancelOperationIssue (s : JsSession) : JsSession × Bool :=
  match s.activeJobId with
  | none => ({ s with processStatus := "No running job." }, false)
  | some _ => (s, true)

/-- Error continuation of `viewer_cancel_op`: surface the error text only. -/
def cancelOperationErr (s : JsSession) (err : String) : JsSession :=
  { s with processStatus := err }

/-- `handleOpEvent`: drop events with a missing payload or null `job_id`;
drop events whose `job_id` differs from a *tracked* job; otherwise process
terminal statuses — clear the job slot, post a status message, and for
`completed` additionally trigger a `requestFrame()`. -/
def handleOpEvent (s : JsSession) (payload : Option OpEvent) : JsSession :=
  match payload with
  | none => s
  | some e =>
    match e.job_id with
    | none => s
    | some jid =>
      if s.activeJobId ≠ none ∧ s.activeJobId ≠ some jid then s
      else if e.status = "completed" then
        { s with activeJobId := none, busy := false,
                 processStatus := e.op ++ " completed.",
                 frameRequests := s.frameRequests + 1 }
      else if e.status = "failed" then
        { s with activeJobId := none, busy := false,
                 processStatus := messageOr e.message (e.op ++ " failed.") }
      else if e.status = "cancelled" then
        { s with activeJobId := none, busy := false,
                 processStatus := messageOr e.message "Operation cancelled." }
      else s

/-- One turn of the session's single-threaded event loop: a synchronous
entry point runs, or a pending backend continuation or job event lands. -/
inductive SessionAct where
  | startIssue (op mode : String)
  | startOk (jobId : ℕ)
  | startErr (err : String)
  | cancelIssue
  | cancelErr (err : String)
  | opEvent (payload : Option OpEvent)
deriving DecidableEq, Repr

def stepAct (s : JsSession) : SessionAct → JsSession
  | .startIssue op mode => (startOperationIssue s op mode).1
  | .startOk jobId => startOperationOk s jobId
  | .startErr err => startOperationErr s err
  | .cancelIssue => (cancelOperationIssue s).1
  | .cancelErr err => cancelOperationErr s err
  | .opEvent payload => handleOpEvent s payload

def runSession (s : JsSession) (acts : List SessionAct) : JsSession :=
  acts.foldl stepAct s

/-- The session invariant of C10: a tracked job implies the busy flag. -/
def SessionInv (s : JsSession) : Prop :=
  s.activeJobId ≠ none → s.busy = true

theorem requestFrameOk_requestToken (s : FrameSession) (t p e : ℕ) :
    (requestFrameOk s t p e).requestToken = s.requestToken := by
  unfold requestFrameOk
  split <;> rfl

theorem requestFrameOk_stale (s : FrameSession) (t p e : ℕ)
    (h : t ≠ s.requestToken) : requestFrameOk s t p e = s := by
  simp [requestFrameOk, h]

theorem requestFrameOk_accept_frame (s : FrameSession) (t p e : ℕ)
    (h : t = s.requestToken) : (requestFrameOk s t p e).frame = some p := by
  simp [requestFrameOk, h]

theorem issueBurst_requestToken (s : FrameSession) (n : ℕ) :
    (issueBurst s n).requestToken = s.requestToken + n := by
  induction n with
  | zero => rfl
  | succ k ih =>
    show (requestFrameIssue (issueBurst s k)).1.requestToken = _
    simp only [requestFrameIssue, ih]
    omega

theorem processResponses_all_stale (s : FrameSession) (rs : List (ℕ × ℕ × ℕ))
    (h : ∀ r ∈ rs, r.1 ≠ s.requestToken) : processResponses s rs = s := by
  induction rs with
  | nil => rfl
  | cons r rest ih =>
    show processResponses (requestFrameOk s r.1 r.2.1 r.2.2) rest = s
    rw [requestFrameOk_stale s r.1 r.2.1 r.2.2 (h r (List.mem_cons_self r rest))]
    exact ih fun x hx => h x (List.mem_cons_of_mem r hx)

theorem processResponses_hit (s : FrameSession) (rs : List (ℕ × ℕ × ℕ)) (p e : ℕ)
    (hdist : (rs.map Prod.fst).Nodup) (hm : (s.requestToken, p, e) ∈ rs) :
    (processResponses s rs).frame = some p := by
  induction rs generalizing s with
  | nil => cases hm
  | cons r rest ih =>
    simp only [List.map_cons, List.nodup_cons] at hdist
    obtain ⟨hnotin, hrest⟩ := hdist
    show (processResponses (requestFrameOk s r.1 r.2.1 r.2.2) rest).frame = some p
    rcases List.mem_cons.mp hm with heq | hmem
    · have hr1 : r.1 = s.requestToken := by rw [← heq]
      have hstep : (requestFrameOk s r.1 r.2.1 r.2.2).frame = some p := by
        have : r.2.1 = p := by rw [← heq]
        rw [this] at *
        exact requestFrameOk_accept_frame s r.1 p r.2.2 hr1
      have hstale : ∀ x ∈ rest, x.1 ≠ (requestFrameOk s r.1 r.2.1 r.2.2).requestToken := by
        intro x hx
        rw [requestFrameOk_requestToken, ← hr1]
        intro hcontra
        exact hnotin (hcontra ▸ List.mem_map_of_mem Prod.fst hx)
      rw [processResponses_all_stale _ rest hstale]
      exact hstep
    · have hr1 : r.1 ≠ s.requestToken := by
        intro hcontra
        have : s.requestToken ∈ rest.map Prod.fst :=
          List.mem_map_of_mem Prod.fst hmem
        exact hnotin (hcontra ▸ this)
      rw [requestFrameOk_stale s r.1 r.2.1 r.2.2 hr1]
      exact ih s hrest hmem

theorem nodup_filter_fst_length (rs : List (ℕ × ℕ × ℕ)) (T : ℕ)
    (hdist : (rs.map Prod.fst).Nodup) :
    (rs.filter (fun r => r.1 = T)).length ≤ 1 := by
  induction rs with
  | nil => simp
  | cons r rest ih =>
    simp only [List.map_cons, List.nodup_cons] at hdist
    obtain ⟨hnotin, hrest⟩ := hdist
    by_cases hr : r.1 = T
    · have hnil : rest.filter (fun x => x.1 = T) = [] := by
        rw [List.filter_eq_nil_iff]
        intro a ha
        simp only [decide_eq_true_eq]
        intro hcontra
        apply hnotin
        rw [hr, ← hcontra]
        exact List.mem_map_of_mem Prod.fst ha
      simp [List.filter_cons, hr, hnil]
    · have hcond : (decide (r.1 = T)) = false := by simp [hr]
      simp only [List.filter_cons, hcond, Bool.false_eq_true, if_false]
      exact ih hrest

/-! ## Theorems: frame request coordinator -/

/-- C1: for a burst of `N` `requestFrame` calls all issued before any response
arrives, with responses arriving in any order (any list of distinct tokens
drawn from the burst): the `N`-th (last) request captured token
`requestToken + N`; at most one response carries that token, so at most one
Frame update is applied; a response whose token differs from the current
counter leaves the session untouched; the response of the last request,
when it arrives, sets the frame to its payload; and if the last request's
response is absent, no Frame update occurs at all. -/
theorem requestFrame_burst_last_wins
    (s0 : FrameSession) (N : ℕ) (rs : List (ℕ × ℕ × ℕ))
    (hN : 0 < N)
    (hdist : (rs.map Prod.fst).Nodup)
    (hrange : ∀ r ∈ rs, s0.requestToken + 1 ≤ r.1 ∧ r.1 ≤ s0.requestToken + N) :
    ((requestFrameIssue (issueBurst s0 (N - 1))).2 = s0.requestToken + N) ∧
    ((rs.filter (fun r => r.1 = s0.requestToken + N)).length ≤ 1) ∧
    (∀ r ∈ rs, r.1 ≠ s0.requestToken + N → ∀ s : FrameSession,
        s.requestToken = s0.requestToken + N →
        requestFrameOk s r.1 r.2.1 r.2.2 = s) ∧
    (∀ p e : ℕ, (s0.requestToken + N, p, e) ∈ rs →
        (processResponses (issueBurst s0 N) rs).frame = some p) ∧
    ((∀ r ∈ rs, r.1 ≠ s0.requestToken + N) →
        processResponses (issueBurst s0 N) rs = issueBurst s0 N) := by
  have hburst : (issueBurst s0 N).requestToken = s0.requestToken + N :=
    issueBurst_requestToken s0 N
  refine ⟨?_, ?_, ?_, ?_, ?_⟩
  · show (issueBurst s0 (N - 1)).requestToken + 1 = s0.requestToken + N
    rw [issueBurst_requestToken]
    omega
  · exact nodup_filter_fst_length rs (s0.requestToken + N) hdist
  · intro r _ hne s hs
    exact requestFrameOk_stale s r.1 r.2.1 r.2.2 (hs ▸ hne)
  · intro p e hm
    exact processResponses_hit (issueBurst s0 N) rs p e hdist (hburst ▸ hm)
  · intro hall
    exact processResponses_all_stale (issueBurst s0 N) rs
      fun r hr => hburst ▸ hall r hr

/-- C1 witness: a burst of 2 requests from a fresh session (tokens 1 and 2);
the responses arrive out of order — the last request's response (token 2,
payload 7) first, then the superseded one (token 1, payload 9) — and the
displayed frame is payload 7. -/
theorem requestFrame_burst_last_wins_witness :
    0 < 2 ∧
      (([((2 : ℕ), (7 : ℕ), (5 : ℕ)), (1, 9, 3)].map Prod.fst).Nodup) ∧
      (∀ r ∈ [((2 : ℕ), (7 : ℕ), (5 : ℕ)), (1, 9, 3)],
        (FrameSession.mk 0 none "Ready.").requestToken + 1 ≤ r.1 ∧
          r.1 ≤ (FrameSession.mk 0 none "Ready.").requestToken + 2) ∧
      (processResponses (issueBurst ⟨0, none, "Ready."⟩ 2)
          [(2, 7, 5), (1, 9, 3)]).frame = some 7 :=
  ⟨by decide, by decide, by decide,
    (requestFrame_burst_last_wins ⟨0, none, "Ready."⟩ 2 [(2, 7, 5), (1, 9, 3)]
        (by decide) (by decide) (by decide)).2.2.2.1 7 5 (by decide)⟩

/-- C3 counterexample: from a fresh session, issue two requests (tokens 1
and 2); the captured token of the first request (1) no longer equals the
current counter (2), yet the error continuation for that superseded request
still changes the status text — the stale error is surfaced, not silently
discarded. -/
theorem frame_error_stale_surfaced_counterexample :
    ((requestFrameIssue ⟨0, none, "Ready."⟩).2 ≠
        ((requestFrameIssue (requestFrameIssue ⟨0, none, "Ready."⟩).1).1).requestToken) ∧
      (requestFrameErr ((requestFrameIssue (requestFrameIssue ⟨0, none, "Ready."⟩).1).1)
          (requestFrameIssue ⟨0, none, "Ready."⟩).2 "decode failure").status ≠
        ((requestFrameIssue (requestFrameIssue ⟨0, none, "Ready."⟩).1).1).status := by
  decide

/-- C3 amended: a backend error response sets the session status to the
error unconditionally — even when the captured token no longer equals the
current frame-freshness counter — while leaving the frame and the counter
unchanged; only successful responses are subject to the token check. -/
theorem frame_error_always_surfaced (s : FrameSession) (token : ℕ) (err : String)
    (hstale : token ≠ s.requestToken) :
    (requestFrameErr s token err).status = err ∧
    (requestFrameErr s token err).frame = s.frame ∧
    (requestFrameErr s token err).requestToken = s.requestToken :=
  ⟨rfl, rfl, rfl⟩

/-- C3 amended witness: the stale error (captured token 1, current counter 2)
is surfaced as the status while frame and counter stay put. -/
theorem frame_error_always_surfaced_witness :
    (1 : ℕ) ≠ (FrameSession.mk 2 none "Ready.").requestToken ∧
      ((requestFrameErr ⟨2, none, "Ready."⟩ 1 "decode failure").status = "decode failure" ∧
        (requestFrameErr ⟨2, none, "Ready."⟩ 1 "decode failure").frame =
          (FrameSession.mk 2 none "Ready.").frame ∧
        (requestFrameErr ⟨2, none, "Ready."⟩ 1 "decode failure").requestToken =
          (FrameSession.mk 2 none "Ready.").requestToken) :=
  ⟨by decide, frame_error_always_surfaced ⟨2, none, "Ready."⟩ 1 "decode failure" (by decide)⟩

/-! ## Theorems: viewport transform -/

/-- C7: for every zoom in `[0.1, 64]`, all real pan offsets and every
in-bounds integer data coordinate `(x, y)`, mapping to screen space with
`toScreen` and back with the floored inverse `toDataFloor` recovers `(x, y)`
exactly. -/
theorem viewport_round_trip (zoom panX panY : ℚ) (x y w h : ℤ)
    (hzlo : 1 / 10 ≤ zoom) (hzhi : zoom ≤ 64)
    (hx0 : 0 ≤ x) (hxw : x < w) (hy0 : 0 ≤ y) (hyh : y < h) :
    toDataFloor zoom panX panY
      (toScreen zoom panX panY (x : ℚ) (y : ℚ)).1
      (toScreen zoom panX panY (x : ℚ) (y : ℚ)).2 = (x, y) := by
  have hz : zoom ≠ 0 := by positivity
  have h1 : (x : ℚ) * zoom / zoom = (x : ℚ) := mul_div_cancel_right₀ _ hz
  have h2 : (y : ℚ) * zoom / zoom = (y : ℚ) := mul_div_cancel_right₀ _ hz
  simp [toDataFloor, toScreen, h1, h2]

/-- C7 witness: the round trip at `zoom = 2`, `pan = (5, -3)`, `(x, y) = (3, 0)`
inside a `4 × 1` frame. -/
theorem viewport_round_trip_witness :
    (1 : ℚ) / 10 ≤ 2 ∧ (2 : ℚ) ≤ 64 ∧ (0 : ℤ) ≤ 3 ∧ (3 : ℤ) < 4 ∧
      (0 : ℤ) ≤ 0 ∧ (0 : ℤ) < 1 ∧
      toDataFloor 2 5 (-3)
        (toScreen 2 5 (-3) ((3 : ℤ) : ℚ) ((0 : ℤ) : ℚ)).1
        (toScreen 2 5 (-3) ((3 : ℤ) : ℚ) ((0 : ℤ) : ℚ)).2 = (3, 0) :=
  ⟨by norm_num, by norm_num, by decide, by decide, by decide, by decide,
    viewport_round_trip 2 5 (-3) 3 0 4 1 (by norm_num) (by norm_num)
      (by decide) (by decide) (by decide) (by decide)⟩

/-- C8: the wheel handler's pan update anchored at a local screen point
preserves the pre-floor data coordinate of the anchor: with
`pan' = anchoredPan previousZoom nextZoom pan localCoord`,
`(localCoord - pan') / nextZoom = (localCoord - pan) / previousZoom`
whenever both zoom factors are positive. -/
theorem zoom_anchor_preserves_data_point
    (previousZoom nextZoom pan localCoord : ℚ)
    (hprev : 0 < previousZoom) (hnext : 0 < nextZoom) :
    (localCoord - anchoredPan previousZoom nextZoom pan localCoord) / nextZoom =
      (localCoord - pan) / previousZoom := by
  have h1 : previousZoom ≠ 0 := ne_of_gt hprev
  have h2 : nextZoom ≠ 0 := ne_of_gt hnext
  unfold anchoredPan
  field_simp
  ring

/-- C8 witness: zooming from `1` to `28/25` (one `* 1.12` wheel step) with
`pan = 20`, anchored at local coordinate `100`. -/
theorem zoom_anchor_preserves_data_point_witness :
    (0 : ℚ) < 1 ∧ (0 : ℚ) < 28 / 25 ∧
      (100 - anchoredPan 1 (28 / 25) 20 100) / (28 / 25) = (100 - 20) / 1 :=
  ⟨by norm_num, by norm_num,
    zoom_anchor_preserves_data_point 1 (28 / 25) 20 100 (by norm_num) (by norm_num)⟩

/-! ## Theorems: hover readout -/

/-- C9: the hover readout never fabricates an out-of-bounds coordinate.
First conjunct: whenever `updateHover` produces a readout, its coordinates
lie in `[0, width) × [0, height)`.  Second conjunct: whenever the floored
inverse-transformed point falls outside that rectangle, `updateHover`
returns `none` ("outside"). -/
theorem updateHover_bounds (f : FrameData) (zoom panX panY localX localY : ℚ) :
    (∀ hv : Hover, updateHover (some f) zoom panX panY localX localY = some hv →
        0 ≤ hv.x ∧ hv.x < (f.width : ℤ) ∧ 0 ≤ hv.y ∧ hv.y < (f.height : ℤ)) ∧
    ((⌊(localX - panX) / zoom⌋ < 0 ∨ ⌊(localY - panY) / zoom⌋ < 0 ∨
        (f.width : ℤ) ≤ ⌊(localX - panX) / zoom⌋ ∨
        (f.height : ℤ) ≤ ⌊(localY - panY) / zoom⌋) →
      updateHover (some f) zoom panX panY localX localY = none) := by
  constructor
  · intro hv hsome
    unfold updateHover at hsome
    by_cases hout : ⌊(localX - panX) / zoom⌋ < 0 ∨ ⌊(localY - panY) / zoom⌋ < 0 ∨
        (f.width : ℤ) ≤ ⌊(localX - panX) / zoom⌋ ∨
        (f.height : ℤ) ≤ ⌊(localY - panY) / zoom⌋
    · simp only [hout, if_true] at hsome
      exact absurd hsome (by simp)
    · simp only [hout, if_false] at hsome
      push_neg at hout
      obtain ⟨hx0, hy0, hxw, hyh⟩ := hout
      cases hsome
      exact ⟨hx0, hxw, hy0, hyh⟩
  · intro hout
    unfold updateHover
    simp only [hout, if_true]

/-- C9 witness: a `2 × 2` frame viewed at `zoom = 1`, `pan = (0, 0)`; the
local point `(-1, 0)` floors to data coordinate `(-1, 0)`, which is outside,
so the hover readout is `none`. -/
theorem updateHover_bounds_witness :
    (⌊(((-1 : ℚ)) - 0) / 1⌋ < 0 ∨ ⌊((0 : ℚ) - 0) / 1⌋ < 0 ∨
        ((2 : ℕ) : ℤ) ≤ ⌊(((-1 : ℚ)) - 0) / 1⌋ ∨
        ((2 : ℕ) : ℤ) ≤ ⌊((0 : ℚ) - 0) / 1⌋) ∧
      updateHover (some ⟨2, 2, [0, 10, 20, 30], 0, 1⟩) 1 0 0 (-1) 0 = none :=
  ⟨Or.inl (by simp [Rat.floor_def]),
    (updateHover_bounds ⟨2, 2, [0, 10, 20, 30], 0, 1⟩ 1 0 0 (-1) 0).2
      (Or.inl (by simp [Rat.floor_def]))⟩

/-! ## Theorems: job lifecycle and event filter -/

/-- C4: `startOperation` invoked while the session is busy (a job is
running) is refused — the already-running message is posted, no start
request reaches the backend, and the tracked job identifier, busy flag and
frame-request count are exactly as before. -/
theorem start_while_running_refused (s : JsSession) (op mode : String)
    (h : s.busy = true) :
    (startOperationIssue s op mode).2 = false ∧
    (startOperationIssue s op mode).1.activeJobId = s.activeJobId ∧
    (startOperationIssue s op mode).1.busy = s.busy ∧
    (startOperationIssue s op mode).1.frameRequests = s.frameRequests ∧
    (startOperationIssue s op mode).1.processStatus =
      "Another operation is already running." := by
  simp [startOperationIssue, h]

/-- C4 witness: a second start attempted while job 1 runs is refused and
changes none of the tracked state. -/
theorem start_while_running_refused_witness :
    (JsSession.mk (some 1) true "Running gaussian.blur (preview)..." 0).busy = true ∧
      ((startOperationIssue ⟨some 1, true, "Running gaussian.blur (preview)...", 0⟩
          "threshold.otsu" "apply").2 = false ∧
        (startOperationIssue ⟨some 1, true, "Running gaussian.blur (preview)...", 0⟩
          "threshold.otsu" "apply").1.activeJobId = some 1 ∧
        (startOperationIssue ⟨some 1, true, "Running gaussian.blur (preview)...", 0⟩
          "threshold.otsu" "apply").1.busy = true ∧
        (startOperationIssue ⟨some 1, true, "Running gaussian.blur (preview)...", 0⟩
          "threshold.otsu" "apply").1.frameRequests = 0 ∧
        (startOperationIssue ⟨some 1, true, "Running gaussian.blur (preview)...", 0⟩
          "threshold.otsu" "apply").1.processStatus =
          "Another operation is already running.") :=
  ⟨rfl, start_while_running_refused
    ⟨some 1, true, "Running gaussian.blur (preview)...", 0⟩ "threshold.otsu" "apply" rfl⟩

/-- C5: `cancelOperation` with no tracked job is refused with the
no-running-job message and issues nothing; with a tracked job it issues a
cancellation request and leaves the whole session state unchanged — the
transition happens only when a terminal event is observed.  If the backend
completes the job before processing the cancellation (so the terminal event
is `completed`), the session ends with the slot freed, a frame refresh
triggered, and the completed status — not the cancelled one. -/
theorem cancel_contract (s : JsSession) (j : ℕ) (eop : String) :
    (s.activeJobId = none →
      (cancelOperationIssue s).2 = false ∧
      (cancelOperationIssue s).1.activeJobId = none ∧
      (cancelOperationIssue s).1.busy = s.busy ∧
      (cancelOperationIssue s).1.frameRequests = s.frameRequests ∧
      (cancelOperationIssue s).1.processStatus = "No running job.") ∧
    (s.activeJobId = some j →
      (cancelOperationIssue s).2 = true ∧ (cancelOperationIssue s).1 = s) ∧
    (s.activeJobId = some j →
      (handleOpEvent (cancelOperationIssue s).1
          (some ⟨some j, "completed", eop, none⟩)).activeJobId = none ∧
      (handleOpEvent (cancelOperationIssue s).1
          (some ⟨some j, "completed", eop, none⟩)).busy = false ∧
      (handleOpEvent (cancelOperationIssue s).1
          (some ⟨some j, "completed", eop, none⟩)).frameRequests =
        s.frameRequests + 1 ∧
      (handleOpEvent (cancelOperationIssue s).1
          (some ⟨some j, "completed", eop, none⟩)).processStatus =
        eop ++ " completed.") := by
  refine ⟨?_, ?_, ?_⟩
  · intro h
    simp [cancelOperationIssue, h]
  · intro h
    simp [cancelOperationIssue, h]
  · intro h
    have hc : (cancelOperationIssue s).1 = s := by simp [cancelOperationIssue, h]
    rw [hc]
    simp [handleOpEvent, h]

/-- C5 witness: an idle session refuses cancel; a session tracking job 4
issues the cancellation unchanged, and a subsequent `completed` event for
job 4 frees the slot, bumps the frame-request count and posts the completed
status. -/
theorem cancel_contract_witness :
    ((cancelOperationIssue initialSession).2 = false ∧
      (cancelOperationIssue initialSession).1.activeJobId = none ∧
      (cancelOperationIssue initialSession).1.busy = initialSession.busy ∧
      (cancelOperationIssue initialSession).1.frameRequests =
        initialSession.frameRequests ∧
      (cancelOperationIssue initialSession).1.processStatus = "No running job.") ∧
      ((cancelOperationIssue ⟨some 4, true, "Running gaussian.blur (apply)...", 2⟩).2 =
          true ∧
        (cancelOperationIssue ⟨some 4, true, "Running gaussian.blur (apply)...", 2⟩).1 =
          ⟨some 4, true, "Running gaussian.blur (apply)...", 2⟩) ∧
      ((handleOpEvent
          (cancelOperationIssue ⟨some 4, true, "Running gaussian.blur (apply)...", 2⟩).1
          (some ⟨some 4, "completed", "gaussian.blur", none⟩)).activeJobId = none ∧
        (handleOpEvent
          (cancelOperationIssue ⟨some 4, true, "Running gaussian.blur (apply)...", 2⟩).1
          (some ⟨some 4, "completed", "gaussian.blur", none⟩)).busy = false ∧
        (handleOpEvent
          (cancelOperationIssue ⟨some 4, true, "Running gaussian.blur (apply)...", 2⟩).1
          (some ⟨some 4, "completed", "gaussian.blur", none⟩)).frameRequests = 2 + 1 ∧
        (handleOpEvent
          (cancelOperationIssue ⟨some 4, true, "Running gaussian.blur (apply)...", 2⟩).1
          (some ⟨some 4, "completed", "gaussian.blur", none⟩)).processStatus =
          "gaussian.blur" ++ " completed.") :=
  ⟨(cancel_contract initialSession 0 "gaussian.blur").1 rfl,
    (cancel_contract ⟨some 4, true, "Running gaussian.blur (apply)...", 2⟩ 4
        "gaussian.blur").2.1 rfl,
    (cancel_contract ⟨some 4, true, "Running gaussian.blur (apply)...", 2⟩ 4
        "gaussian.blur").2.2 rfl⟩

/-- C2 counterexample: delivering the same terminal `completed` event twice
is observable the second time.  After the first delivery retires job 1
(tracked identifier cleared), the second delivery of the identical event is
*not* discarded: the session changes again — in particular the
frame-request count is bumped a second time. -/
theorem handleOpEvent_retired_counterexample :
    (handleOpEvent
        (handleOpEvent ⟨some 1, true, "Running gaussian.blur (preview)...", 0⟩
          (some ⟨some 1, "completed", "gaussian.blur", none⟩))
        (some ⟨some 1, "completed", "gaussian.blur", none⟩)) ≠
      (handleOpEvent ⟨some 1, true, "Running gaussian.blur (preview)...", 0⟩
        (some ⟨some 1, "completed", "gaussian.blur", none⟩)) ∧
    (handleOpEvent
        (handleOpEvent ⟨some 1, true, "Running gaussian.blur (preview)...", 0⟩
          (some ⟨some 1, "completed", "gaussian.blur", none⟩))
        (some ⟨some 1, "completed", "gaussian.blur", none⟩)).frameRequests = 2 := by
  decide

/-- C2 amended: the handler discards silently exactly the events with a
missing payload or null `job_id`, and the events whose `job_id` differs
from a *tracked* identifier.  When no job is tracked, a terminal event with
a non-null `job_id` is still processed: the busy flag and tracked
identifier are (re-)cleared, the status text is updated, and a `completed`
event additionally triggers a frame request — so a duplicate terminal event
for an already-retired job does have an observable effect the second time. -/
theorem handleOpEvent_filter_amended (s : JsSession) (e : OpEvent) (j a : ℕ) :
    (handleOpEvent s none = s) ∧
    (e.job_id = none → handleOpEvent s (some e) = s) ∧
    (s.activeJobId = some a → e.job_id = some j → j ≠ a →
      handleOpEvent s (some e) = s) ∧
    (s.activeJobId = none → e.job_id = some j → e.status = "completed" →
      handleOpEvent s (some e) =
        { s with activeJobId := none, busy := false,
                 processStatus := e.op ++ " completed.",
                 frameRequests := s.frameRequests + 1 }) ∧
    (s.activeJobId = none → e.job_id = some j → e.status = "cancelled" →
      handleOpEvent s (some e) =
        { s with activeJobId := none, busy := false,
                 processStatus := messageOr e.message "Operation cancelled." }) := by
  refine ⟨rfl, ?_, ?_, ?_, ?_⟩
  · intro hj
    simp [handleOpEvent, hj]
  · intro ha hj hne
    have : s.activeJobId ≠ none ∧ s.activeJobId ≠ some j := by
      rw [ha]
      exact ⟨Option.some_ne_none a, by simpa using fun hc => hne hc.symm⟩
    simp [handleOpEvent, hj, this]
  · intro ha hj hst
    simp [handleOpEvent, hj, ha, hst]
  · intro ha hj hst
    simp [handleOpEvent, hj, ha, hst]

/-- C2 amended witness: a mismatched event for a tracked job is dropped;
after the slot is free, a `completed` event for job 7 is processed — the
status text changes and a frame request is triggered. -/
theorem handleOpEvent_filter_amended_witness :
    (handleOpEvent ⟨some 2, true, "Running threshold.otsu (preview)...", 0⟩
        (some ⟨some 7, "completed", "threshold.otsu", none⟩) =
      ⟨some 2, true, "Running threshold.otsu (preview)...", 0⟩) ∧
      (handleOpEvent ⟨none, false, "threshold.otsu completed.", 1⟩
          (some ⟨some 7, "completed", "threshold.otsu", none⟩) =
        ⟨none, false, "threshold.otsu" ++ " completed.", 1 + 1⟩) :=
  ⟨(handleOpEvent_filter_amended ⟨some 2, true, "Running threshold.otsu (preview)...", 0⟩
      ⟨some 7, "completed", "threshold.otsu", none⟩ 7 2).2.2.1 rfl rfl (by decide),
    (handleOpEvent_filter_amended ⟨none, false, "threshold.otsu completed.", 1⟩
      ⟨some 7, "completed", "threshold.otsu", none⟩ 7 0).2.2.2.1 rfl rfl rfl⟩

/-- C6 counterexample: a start that the backend will reject still marks the
session busy for the whole in-flight window — the slot does transition
through Running.  From the idle initial session, the synchronous prefix of
`startOperation` sets the busy flag; a concurrently attempted start during
that window observes the busy session and is refused; only when the
rejection lands is the slot Idle again. -/
theorem start_rejected_busy_window_counterexample :
    ((startOperationIssue initialSession "gaussian.blur" "preview").1).busy = true ∧
    (startOperationIssue
        (startOperationIssue initialSession "gaussian.blur" "preview").1
        "threshold.otsu" "preview").2 = false ∧
    (startOperationErr (startOperationIssue initialSession "gaussian.blur" "preview").1
        "invalid parameters: sigma must be positive").busy = false ∧
    (startOperationErr (startOperationIssue initialSession "gaussian.blur" "preview").1
        "invalid parameters: sigma must be positive").activeJobId = none := by
  decide

/-- C6 amended: when the backend rejects a start issued from an idle
session, the failure is surfaced as the status and the slot ends Idle (busy
cleared, no job tracked) once the rejection arrives; but between issuing
the start and receiving the rejection the session is busy, so a concurrent
start attempted in that window is refused. -/
theorem start_rejected_ends_idle (s : JsSession) (op mode op2 mode2 err : String)
    (h : s.busy = false) :
    ((startOperationIssue s op mode).2 = true) ∧
    ((startOperationIssue s op mode).1.busy = true) ∧
    ((startOperationIssue (startOperationIssue s op mode).1 op2 mode2).2 = false) ∧
    (startOperationErr (startOperationIssue s op mode).1 err).busy = false ∧
    (startOperationErr (startOperationIssue s op mode).1 err).activeJobId = none ∧
    (startOperationErr (startOperationIssue s op mode).1 err).processStatus = err := by
  simp [startOperationIssue, startOperationErr, h]

/-- C6 amended witness: the rejected start from the idle initial session. -/
theorem start_rejected_ends_idle_witness :
    initialSession.busy = false ∧
      ((startOperationIssue initialSession "gaussian.blur" "preview").2 = true ∧
        (startOperationIssue initialSession "gaussian.blur" "preview").1.busy = true ∧
        (startOperationIssue
            (startOperationIssue initialSession "gaussian.blur" "preview").1
            "threshold.otsu" "apply").2 = false ∧
        (startOperationErr
            (startOperationIssue initialSession "gaussian.blur" "preview").1
            "invalid parameters").busy = false ∧
        (startOperationErr
            (startOperationIssue initialSession "gaussian.blur" "preview").1
            "invalid parameters").activeJobId = none ∧
        (startOperationErr
            (startOperationIssue initialSession "gaussian.blur" "preview").1
            "invalid parameters").processStatus = "invalid parameters") :=
  ⟨rfl, start_rejected_ends_idle initialSession "gaussian.blur" "preview"
    "threshold.otsu" "apply" "invalid parameters" rfl⟩

theorem sessionInv_init : SessionInv initialSession := by
  intro h
  exact absurd rfl h

theorem sessionInv_step (s : JsSession) (a : SessionAct) (h : SessionInv s) :
    SessionInv (stepAct s a) := by
  cases a with
  | startIssue op mode =>
    show SessionInv (startOperationIssue s op mode).1
    by_cases hb : s.busy
    · simp [SessionInv, startOperationIssue, hb]
    · simp [SessionInv, startOperationIssue, hb]
  | startOk jobId =>
    show SessionInv (startOperationOk s jobId)
    by_cases hb : s.busy
    · simp [SessionInv, startOperationOk, hb]
    · simp [SessionInv, startOperationOk, hb]
  | startErr err =>
    show SessionInv (startOperationErr s err)
    simp [SessionInv, startOperationErr]
  | cancelIssue =>
    show SessionInv (cancelOperationIssue s).1
    rcases hcase : s.activeJobId with _ | j
    · simp [SessionInv, cancelOperationIssue, hcase]
    · simpa [cancelOperationIssue, hcase] using h
  | cancelErr err => exact h
  | opEvent payload =>
    show SessionInv (handleOpEvent s payload)
    rcases payload with _ | e
    · exact h
    · rcases hjid : e.job_id with _ | jid
      · simpa [handleOpEvent, hjid] using h
      · by_cases hg : s.activeJobId ≠ none ∧ s.activeJobId ≠ some jid
        · simpa [handleOpEvent, hjid, hg] using h
        · by_cases hc : e.status = "completed"
          · simp [SessionInv, handleOpEvent, hjid, hg, hc]
          · by_cases hf : e.status = "failed"
            · simp [SessionInv, handleOpEvent, hjid, hg, hc, hf]
            · by_cases hx : e.status = "cancelled"
              · simp [SessionInv, handleOpEvent, hjid, hg, hc, hf, hx]
              · simpa [handleOpEvent, hjid, hg, hc, hf, hx] using h

theorem sessionInv_run (s : JsSession) (acts : List SessionAct)
    (h : SessionInv s) : SessionInv (runSession s acts) := by
  induction acts generalizing s with
  | nil => exact h
  | cons a rest ih => exact ih (stepAct s a) (sessionInv_step s a h)

/-- C10: in every state reachable from the initial session by any sequence
of start / cancel / event steps, a non-null tracked job identifier implies
the busy flag is set; and any step taken from such a reachable state that
ends with the busy flag clear also ends with the tracked identifier null. -/
theorem session_job_busy_invariant (acts : List SessionAct) :
    ((runSession initialSession acts).activeJobId ≠ none →
      (runSession initialSession acts).busy = true) ∧
    (∀ a : SessionAct,
      (stepAct (runSession initialSession acts) a).busy = false →
      (stepAct (runSession initialSession acts) a).activeJobId = none) := by
  have hrun : SessionInv (runSession initialSession acts) :=
    sessionInv_run initialSession acts sessionInv_init
  refine ⟨hrun, ?_⟩
  intro a hbusy
  have hstep : SessionInv (stepAct (runSession initialSession acts) a) :=
    sessionInv_step _ a hrun
  by_contra hne
  rw [hstep hne] at hbusy
  exact Bool.noConfusion hbusy

/-- C10 witness: after a start is issued and acknowledged as job 3, the
tracked identifier is non-null and the busy flag is set; and the rejection
step from that state, which clears the busy flag, also nulls the tracked
identifier. -/
theorem session_job_busy_invariant_witness :
    (runSession initialSession
        [.startIssue "gaussian.blur" "preview", .startOk 3]).busy = true ∧
      (stepAct (runSession initialSession
          [.startIssue "gaussian.blur" "preview", .startOk 3])
        (.startErr "boom")).activeJobId = none :=
  ⟨(session_job_busy_invariant [.startIssue "gaussian.blur" "preview", .startOk 3]).1
      (by decide),
    (session_job_busy_invariant [.startIssue "gaussian.blur" "preview", .startOk 3]).2
      (.startErr "boom") (by decide)⟩

end ImageRs
